import Mathlib

/-!
Shallow embedding of the `@mssfoobar/auth-sdk` authentication core
(`src/core/auth.ts`, `src/core/sds.ts`, `src/core/tokens.ts`,
`src/core/config.ts`, `src/core/oidc.ts`).

External collaborators (the OIDC protocol engine, the JWT decoder
`jwt-decode`, and the SDS session store) are modelled as oracle
functions supplied to the embedded state machines, exactly as the
code consumes them.  Cookie mutation is modelled as an explicit,
ordered trace of `CookieOp`s; provider invocations are recorded in an
ordered trace of `ProviderCall`s.  A thrown JavaScript error is an
`Except.error`; the cookie/call traces produced before the throw are
retained so that side effects on the fatal path are observable.
-/

namespace AuthSdk

/-- JS truthiness of a possibly-absent string (`if (s)`):
`undefined` and `""` are falsy. -/
def truthyStr : Option String → Bool
  | none => false
  | some v => v != ""

/-- JS truthiness of a possibly-absent number (`if (n)`):
`undefined` and `0` are falsy. -/
def truthyNat : Option Nat → Bool
  | none => false
  | some n => n != 0

/-- Absent strings are falsy. -/
@[simp] theorem truthyStr_none : truthyStr Option.none = false := rfl

/-- Absent numbers are falsy. -/
@[simp] theorem truthyNat_none : truthyNat Option.none = false := rfl

/-- Embeds `SameSite` attribute values (from `src/core/types.ts`). -/
inductive SameSite
  | lax
  | strict
  | none
deriving DecidableEq

/-- Cookie serialization options (from `src/core/types.ts`,
interface `CookieSerializeOptions`; every field is optional). -/
structure CookieSerializeOptions where
  domain : Option String
  path : Option String
  secure : Option Bool
  httpOnly : Option Bool
  sameSite : Option SameSite
  maxAge : Option Nat
deriving DecidableEq

/-- Cookie configuration (from `src/core/types.ts`, interface
`CookieConfig`). -/
structure CookieConfig where
  domain : Option String
  path : Option String
  secure : Option Bool
  httpOnly : Option Bool
  sameSite : Option SameSite
  pfx : String
deriving DecidableEq

/-- The five logical cookie slots (from `src/core/types.ts`,
interface `CookieNames`). -/
structure CookieNames where
  accessToken : String
  refreshToken : String
  codeVerifier : String
  tempSessionId : String
  authSessionId : String
deriving DecidableEq

/-- Embeds `REFRESH_TOKEN_EXPIRY` from `src/core/config.ts`:
`60 * 60 * 24 * 365` (one year in seconds). -/
def REFRESH_TOKEN_EXPIRY : Nat := 60 * 60 * 24 * 365

/-- Embeds `CONTEXT_COOKIE_MAX_AGE` from `src/core/config.ts` (7 days). -/
def CONTEXT_COOKIE_MAX_AGE : Nat := 60 * 60 * 24 * 7

/-- Embeds `getCookieNames` from `src/core/config.ts`: prefix-qualified slot
names. -/
def getCookieNames (pfx : String) : CookieNames :=
  { accessToken := pfx ++ "_access_token"
    refreshToken := pfx ++ "_refresh_token"
    codeVerifier := pfx ++ "_code_verifier"
    tempSessionId := pfx ++ "_temp_session_id"
    authSessionId := pfx ++ "_auth_session_id" }

/-- Embeds `String.prototype.toLowerCase` restricted to the characters the
origin check cares about: lowercase each character. -/
def lowercase (s : String) : String := String.mk (s.data.map Char.toLower)

/-- Embeds `String.prototype.startsWith`: character-wise prefix test. -/
def startsWithStr (s p : String) : Bool := p.data.isPrefixOf s.data

/-- Embeds `buildCookieOptions` from `src/core/config.ts`: `secure` is
computed from the origin string (`origin.toLowerCase().startsWith("https://")`),
never taken from the configuration. -/
def buildCookieOptions (config : CookieConfig) (origin : String) :
    CookieSerializeOptions :=
  { domain := config.domain
    path := some (config.path.getD "/")
    secure := some (startsWithStr (lowercase origin) "https://")
    httpOnly := some (config.httpOnly.getD true)
    sameSite := some (config.sameSite.getD SameSite.lax)
    maxAge := Option.none }

/-- Embeds `withExpiry` from `src/core/config.ts`: copy of the options with
`maxAge` overridden. -/
def withExpiry (options : CookieSerializeOptions) (maxAge : Nat) :
    CookieSerializeOptions :=
  { options with maxAge := some maxAge }

/-- Tenant record from Keycloak claims (`src/core/types.ts`,
interface `Tenant`; every field optional). -/
structure Tenant where
  tenant_name : Option String
  tenant_id : Option String
  roles : Option (List String)
deriving DecidableEq

/-- Embeds `realm_access` claim block. -/
structure RealmAccess where
  roles : List String
deriving DecidableEq

/-- Decoded token payload (`src/core/types.ts`, interface
`AuthClaims`).  The TypeScript interface declares the multi-tenant
fields as present, but the accessors read them with optional chaining
because the identity provider does not guarantee them; they are
modelled as optional. -/
structure AuthClaims where
  sub : Option String
  all_tenants : Option (List Tenant)
  active_tenant : Option Tenant
  realm_access : Option RealmAccess
deriving DecidableEq

/-- Token endpoint response (the slice of `openid-client`'s
`TokenEndpointResponse` the core reads: `access_token`,
`refresh_token?`, `expires_in?`). -/
structure TokenSet where
  access_token : String
  refresh_token : Option String
  expires_in : Option Nat
deriving DecidableEq

/-- A thrown JavaScript error as the callback handlers inspect it:
`(err as ResponseBodyError).error` is the optional OAuth error code
(`undefined` for plain errors). -/
structure JsError where
  error : Option String
deriving DecidableEq

/-- Authentication result (from `src/core/types.ts`,
`AuthResultSuccess | AuthResultFail`). -/
inductive AuthResult
  | success (claims : AuthClaims) (accessToken : String)
  | fail
deriving DecidableEq

/-- One cookie mutation performed through the `CookieAdapter`
(`set(name, value, options)` or `delete(name, options)`). -/
inductive CookieOp
  | set (name value : String) (options : CookieSerializeOptions)
  | delete (name : String) (options : CookieSerializeOptions)
deriving DecidableEq

/-- The slot a cookie operation touches. -/
def CookieOp.slotName : CookieOp → String
  | .set n _ _ => n
  | .delete n _ => n

/-- Whether a cookie operation is a `set`. -/
def CookieOp.isSetOp : CookieOp → Bool
  | .set _ _ _ => true
  | .delete _ _ => false

/-- One invocation of an external capability (OIDC provider or SDS
store), recorded in call order. -/
inductive ProviderCall
  | validate (accessToken : String)
  | refreshCall (refreshToken : String)
  | exchange (callbackUrl codeVerifier : String)
  | sdsGetAccessToken (sessionId : String)
  | sdsTempGet (sessionId key : String)
  | sdsAuthSessionNew (accessToken refreshToken : String)
deriving DecidableEq

/-- Request URL as the core reads it: `pathname`, `search`, and the
set of query-parameter names (`searchParams.has`). -/
structure URLm where
  pathname : String
  search : String
  paramNames : List String
deriving DecidableEq

/-- Embeds `isOidcCallback` from `src/core/oidc.ts`: both `session_state`
and `code` query parameters are present. -/
def isOidcCallback (url : URLm) : Bool :=
  url.paramNames.contains "session_state" && url.paramNames.contains "code"

/-- Oracles for the external OIDC capability and the JWT decoder.
`decode` stands for `jwt-decode`'s `jwtDecode` (`none` = throws);
`fetchUserInfoOk` stands for `openid-client`'s `fetchUserInfo`
resolving (`false` = rejects); `refreshGrant` stands for
`refreshTokenGrant` (`none` = rejects — `refreshTokens` catches every
rejection); `exchange` stands for `authorizationCodeGrant` via
`exchangeCode`, rejecting with an inspectable error code. -/
structure OidcOracle where
  decode : String → Option AuthClaims
  fetchUserInfoOk : String → String → Bool
  refreshGrant : String → Option TokenSet
  exchange : String → String → Except JsError TokenSet

/-- Embeds `validateAccessToken` from `src/core/tokens.ts`: decode the
token, require a truthy `sub` claim, then call the userinfo endpoint;
any throw is caught and yields `false`. -/
def validateAccessToken (o : OidcOracle) (accessToken : String) : Bool :=
  match o.decode accessToken with
  | Option.none => false
  | some claims =>
    if truthyStr claims.sub then
      o.fetchUserInfoOk accessToken (claims.sub.getD "")
    else
      false

/-- Embeds `refreshTokens` from `src/core/tokens.ts`: `refreshTokenGrant`,
with every rejection caught and turned into `undefined`. -/
def refreshTokens (o : OidcOracle) (refreshToken : String) : Option TokenSet :=
  o.refreshGrant refreshToken

deriving instance DecidableEq for Except

/-- Outcome of one authenticator call: the ordered provider-call
trace, the ordered cookie-mutation trace, and either the returned
`AuthResult` or a propagated thrown error (its message). -/
structure AuthOutcome where
  calls : List ProviderCall
  ops : List CookieOp
  result : Except String AuthResult
deriving DecidableEq

/-- Embeds `decodeAccessToken` from `src/core/tokens.ts`: `jwtDecode` on
the access token, modelled by the decode oracle `d` (`none` =
throws). -/
def decodeAccessToken (d : String → Option AuthClaims) (accessToken : String) :
    Option AuthClaims :=
  d accessToken

/-- Embeds `isTenantAdmin` from `src/core/tokens.ts`:
`claims.active_tenant?.roles?.includes("tenant-admin") ?? false`,
with decode throws caught and turned into `false`. -/
def isTenantAdmin (d : String → Option AuthClaims) (accessToken : String) : Bool :=
  match decodeAccessToken d accessToken with
  | some claims =>
    ((claims.active_tenant.bind Tenant.roles).map
      (fun roles => roles.contains "tenant-admin")).getD false
  | Option.none => false

/-- Embeds `getTenantIds` from `src/core/tokens.ts`:
`claims.all_tenants?.map(t => t.tenant_id).filter(defined) ?? []`,
with decode throws caught and turned into `[]`. -/
def getTenantIds (d : String → Option AuthClaims) (accessToken : String) :
    List String :=
  match decodeAccessToken d accessToken with
  | some claims =>
    (claims.all_tenants.map (fun ts => ts.filterMap Tenant.tenant_id)).getD []
  | Option.none => []

/-- Embeds `getActiveTenantId` from `src/core/tokens.ts`:
`claims.active_tenant?.tenant_id`, with decode throws caught and
turned into `undefined`. -/
def getActiveTenantId (d : String → Option AuthClaims) (accessToken : String) :
    Option String :=
  match decodeAccessToken d accessToken with
  | some claims => claims.active_tenant.bind Tenant.tenant_id
  | Option.none => Option.none

/-- Embeds `getRealmRoles` from `src/core/tokens.ts`:
`claims.realm_access?.roles ?? []`, with decode throws caught and
turned into `[]`. -/
def getRealmRoles (d : String → Option AuthClaims) (accessToken : String) :
    List String :=
  match decodeAccessToken d accessToken with
  | some claims => (claims.realm_access.map RealmAccess.roles).getD []
  | Option.none => []

/-- Embeds `hasRealmRole` from `src/core/tokens.ts`. -/
def hasRealmRole (d : String → Option AuthClaims) (accessToken role : String) :
    Bool :=
  (getRealmRoles d accessToken).contains role

/-- Embeds `handleAuthSuccess` from `src/core/auth.ts`: write the access
token cookie when `expiresIn` is truthy, write the refresh token
cookie (one-year expiry) when a refresh token is present, always
clear the PKCE verifier cookie, then decode the access token (an
undecodable token makes `decodeAccessToken` throw — the cookie
writes have already happened). -/
def handleAuthSuccess (d : String → Option AuthClaims) (names : CookieNames)
    (opts : CookieSerializeOptions) (accessToken : String)
    (refreshToken : Option String) (expiresIn : Option Nat) :
    List CookieOp × Except String AuthResult :=
  let accessOps :=
    if truthyNat expiresIn then
      [CookieOp.set names.accessToken accessToken
        (withExpiry opts (expiresIn.getD 0))]
    else []
  let refreshOps :=
    if truthyStr refreshToken then
      [CookieOp.set names.refreshToken (refreshToken.getD "")
        (withExpiry opts REFRESH_TOKEN_EXPIRY)]
    else []
  let ops := accessOps ++ refreshOps ++
    [CookieOp.delete names.codeVerifier (withExpiry opts 0)]
  match decodeAccessToken d accessToken with
  | some claims => (ops, Except.ok (AuthResult.success claims accessToken))
  | Option.none => (ops, Except.error "InvalidTokenError")

/-- The cookie deletions performed by `handleAuthFailure`
(`src/core/auth.ts`): all five slots, with `maxAge = 0`. -/
def failureClearOps (names : CookieNames) (opts : CookieSerializeOptions) :
    List CookieOp :=
  let expiredOptions := withExpiry opts 0
  [CookieOp.delete names.accessToken expiredOptions,
   CookieOp.delete names.refreshToken expiredOptions,
   CookieOp.delete names.codeVerifier expiredOptions,
   CookieOp.delete names.authSessionId expiredOptions,
   CookieOp.delete names.tempSessionId expiredOptions]

/-- Embeds `handleAuthFailure` from `src/core/auth.ts`. -/
def handleAuthFailure (names : CookieNames) (opts : CookieSerializeOptions) :
    List CookieOp × AuthResult :=
  (failureClearOps names opts, AuthResult.fail)

/-- Embeds `doRefresh` from `src/core/auth.ts`: one refresh call; success
feeds the new token set to `handleAuthSuccess`, failure clears
cookies and fails. -/
def doRefresh (o : OidcOracle) (refreshToken : String) (names : CookieNames)
    (opts : CookieSerializeOptions) : AuthOutcome :=
  match refreshTokens o refreshToken with
  | some newTokens =>
    let su := handleAuthSuccess o.decode names opts newTokens.access_token
      newTokens.refresh_token newTokens.expires_in
    { calls := [ProviderCall.refreshCall refreshToken]
      ops := su.1
      result := su.2 }
  | Option.none =>
    let f := handleAuthFailure names opts
    { calls := [ProviderCall.refreshCall refreshToken]
      ops := f.1
      result := Except.ok f.2 }

/-- Embeds `handleOidcCallback` from `src/core/auth.ts`: fail closed without
a PKCE verifier; otherwise exchange the code on the reconstructed
callback URL (`origin + pathname + search`).  The `try` block spans
both `exchangeCode` and `handleAuthSuccess`; in the `catch`,
`invalid_grant` and every other code are logged and become a failure,
while `unauthorized_client` rethrows `"Invalid client credentials"`. -/
def handleOidcCallback (o : OidcOracle) (url : URLm) (origin : String)
    (codeVerifier : Option String) (names : CookieNames)
    (opts : CookieSerializeOptions) : AuthOutcome :=
  if !truthyStr codeVerifier then
    let f := handleAuthFailure names opts
    { calls := [], ops := f.1, result := Except.ok f.2 }
  else
    let callbackUrl := origin ++ url.pathname ++ url.search
    let verifier := codeVerifier.getD ""
    match o.exchange callbackUrl verifier with
    | Except.ok tokenSet =>
      let su := handleAuthSuccess o.decode names opts tokenSet.access_token
        tokenSet.refresh_token tokenSet.expires_in
      match su.2 with
      | Except.ok r =>
        { calls := [ProviderCall.exchange callbackUrl verifier]
          ops := su.1
          result := Except.ok r }
      | Except.error _ =>
        -- decodeAccessToken threw inside the try block: the catch sees
        -- an error without an OAuth code, logs it, and fails — after
        -- the success-path cookie writes already happened
        let f := handleAuthFailure names opts
        { calls := [ProviderCall.exchange callbackUrl verifier]
          ops := su.1 ++ f.1
          result := Except.ok f.2 }
    | Except.error e =>
      if e.error = some "unauthorized_client" then
        { calls := [ProviderCall.exchange callbackUrl verifier]
          ops := []
          result := Except.error "Invalid client credentials" }
      else
        let f := handleAuthFailure names opts
        { calls := [ProviderCall.exchange callbackUrl verifier]
          ops := f.1
          result := Except.ok f.2 }

/-- Embeds `authenticate` from `src/core/auth.ts`: the cookie-backed state
machine.  Reads the three cookie values up front, then takes the
first matching branch: validate (falling back to refresh), refresh,
OIDC callback, fail. -/
def authenticate (o : OidcOracle) (jar : String → Option String) (url : URLm)
    (origin : String) (names : CookieNames) (opts : CookieSerializeOptions) :
    AuthOutcome :=
  let accessToken := jar names.accessToken
  let refreshToken := jar names.refreshToken
  let codeVerifier := jar names.codeVerifier
  if truthyStr accessToken && truthyStr refreshToken then
    let tok := accessToken.getD ""
    if validateAccessToken o tok then
      let su := handleAuthSuccess o.decode names opts tok Option.none Option.none
      { calls := [ProviderCall.validate tok], ops := su.1, result := su.2 }
    else
      let r := doRefresh o (refreshToken.getD "") names opts
      { calls := ProviderCall.validate tok :: r.calls
        ops := r.ops
        result := r.result }
  else if truthyStr refreshToken then
    doRefresh o (refreshToken.getD "") names opts
  else if isOidcCallback url then
    handleOidcCallback o url origin codeVerifier names opts
  else
    let f := handleAuthFailure names opts
    { calls := [], ops := f.1, result := Except.ok f.2 }

/-- Embeds `SDS_SESSION_KEYS.CODE_VERIFIER` from `src/core/sds.ts`. -/
def SDS_SESSION_KEYS_CODE_VERIFIER : String := "code_verifier"

/-- Oracle for the SDS session store (`SdsClient` interface in
`src/core/sds.ts`); each method may reject, carrying an inspectable
error code (`none` for ordinary store errors). -/
structure SdsOracle where
  authSessionGetAccessToken : String → Except JsError String
  tempSessionGet : String → String → Except JsError String
  authSessionNew : String → String → Except JsError String

/-- The cookie deletions performed by `handleSdsAuthFailure`
(`src/core/sds.ts`): only the two session-id slots, with
`maxAge = 0`. -/
def sdsFailureClearOps (names : CookieNames) (opts : CookieSerializeOptions) :
    List CookieOp :=
  let expiredOptions := withExpiry opts 0
  [CookieOp.delete names.authSessionId expiredOptions,
   CookieOp.delete names.tempSessionId expiredOptions]

/-- Embeds `handleSdsAuthFailure` from `src/core/sds.ts`. -/
def handleSdsAuthFailure (names : CookieNames)
    (opts : CookieSerializeOptions) : List CookieOp × AuthResult :=
  (sdsFailureClearOps names opts, AuthResult.fail)

/-- Embeds `handleSdsAuthSuccess` from `src/core/sds.ts`: re-affirm the
auth-session cookie (plain options, no expiry override), clear the
temp-session cookie, then decode the access token (an undecodable
token makes `decodeAccessToken` throw after the cookie writes). -/
def handleSdsAuthSuccess (d : String → Option AuthClaims)
    (names : CookieNames) (opts : CookieSerializeOptions)
    (accessToken authSessionId : String) :
    List CookieOp × Except String AuthResult :=
  let ops := [CookieOp.set names.authSessionId authSessionId opts,
    CookieOp.delete names.tempSessionId (withExpiry opts 0)]
  match decodeAccessToken d accessToken with
  | some claims => (ops, Except.ok (AuthResult.success claims accessToken))
  | Option.none => (ops, Except.error "InvalidTokenError")

/-- Embeds `handleSdsOidcCallback` from `src/core/sds.ts`: require a
temp-session cookie, fetch the PKCE verifier from the store, exchange
the code, create a new store-side auth session.  The `try` block
spans `exchangeCode`, `authSessionNew` and `handleSdsAuthSuccess`;
the `catch` applies the same taxonomy as the cookie-backed handler
(`unauthorized_client` rethrows, everything else fails). -/
def handleSdsOidcCallback (o : OidcOracle) (s : SdsOracle)
    (jar : String → Option String) (url : URLm) (origin : String)
    (names : CookieNames) (opts : CookieSerializeOptions) : AuthOutcome :=
  let tempSessionId := jar names.tempSessionId
  if !truthyStr tempSessionId then
    let f := handleSdsAuthFailure names opts
    { calls := [], ops := f.1, result := Except.ok f.2 }
  else
    let tsid := tempSessionId.getD ""
    match s.tempSessionGet tsid SDS_SESSION_KEYS_CODE_VERIFIER with
    | Except.error _ =>
      let f := handleSdsAuthFailure names opts
      { calls := [ProviderCall.sdsTempGet tsid SDS_SESSION_KEYS_CODE_VERIFIER]
        ops := f.1
        result := Except.ok f.2 }
    | Except.ok codeVerifier =>
      let callbackUrl := origin ++ url.pathname ++ url.search
      match o.exchange callbackUrl codeVerifier with
      | Except.ok tokenSet =>
        match s.authSessionNew tokenSet.access_token
          (tokenSet.refresh_token.getD "") with
        | Except.ok newAuthSessionId =>
          let su := handleSdsAuthSuccess o.decode names opts
            tokenSet.access_token newAuthSessionId
          let calls := [ProviderCall.sdsTempGet tsid SDS_SESSION_KEYS_CODE_VERIFIER,
            ProviderCall.exchange callbackUrl codeVerifier,
            ProviderCall.sdsAuthSessionNew tokenSet.access_token
              (tokenSet.refresh_token.getD "")]
          match su.2 with
          | Except.ok r => { calls := calls, ops := su.1, result := Except.ok r }
          | Except.error _ =>
            -- decodeAccessToken threw inside the try: caught without an
            -- OAuth code, logged, failure — after the cookie writes
            let f := handleSdsAuthFailure names opts
            { calls := calls, ops := su.1 ++ f.1, result := Except.ok f.2 }
        | Except.error e =>
          let calls := [ProviderCall.sdsTempGet tsid SDS_SESSION_KEYS_CODE_VERIFIER,
            ProviderCall.exchange callbackUrl codeVerifier,
            ProviderCall.sdsAuthSessionNew tokenSet.access_token
              (tokenSet.refresh_token.getD "")]
          if e.error = some "unauthorized_client" then
            { calls := calls, ops := [], result := Except.error "Invalid client credentials" }
          else
            let f := handleSdsAuthFailure names opts
            { calls := calls, ops := f.1, result := Except.ok f.2 }
      | Except.error e =>
        let calls := [ProviderCall.sdsTempGet tsid SDS_SESSION_KEYS_CODE_VERIFIER,
          ProviderCall.exchange callbackUrl codeVerifier]
        if e.error = some "unauthorized_client" then
          { calls := calls, ops := [], result := Except.error "Invalid client credentials" }
        else
          let f := handleSdsAuthFailure names opts
          { calls := calls, ops := f.1, result := Except.ok f.2 }

/-- Embeds `authenticateWithSds` from `src/core/sds.ts`: the store-backed
state machine.  Branch 1: auth-session cookie present — fetch the
access token from the store (any throw inside the `try`, including a
decode throw in `handleSdsAuthSuccess`, is caught and becomes a
failure).  Branch 2: OIDC callback.  Branch 3: fail. -/
def authenticateWithSds (o : OidcOracle) (s : SdsOracle)
    (jar : String → Option String) (url : URLm) (origin : String)
    (names : CookieNames) (opts : CookieSerializeOptions) : AuthOutcome :=
  let authSessionId := jar names.authSessionId
  if truthyStr authSessionId then
    let sid := authSessionId.getD ""
    match s.authSessionGetAccessToken sid with
    | Except.ok accessToken =>
      let su := handleSdsAuthSuccess o.decode names opts accessToken sid
      match su.2 with
      | Except.ok r =>
        { calls := [ProviderCall.sdsGetAccessToken sid]
          ops := su.1
          result := Except.ok r }
      | Except.error _ =>
        let f := handleSdsAuthFailure names opts
        { calls := [ProviderCall.sdsGetAccessToken sid]
          ops := su.1 ++ f.1
          result := Except.ok f.2 }
    | Except.error _ =>
      let f := handleSdsAuthFailure names opts
      { calls := [ProviderCall.sdsGetAccessToken sid]
        ops := f.1
        result := Except.ok f.2 }
  else if isOidcCallback url then
    handleSdsOidcCallback o s jar url origin names opts
  else
    let f := handleSdsAuthFailure names opts
    { calls := [], ops := f.1, result := Except.ok f.2 }

/-! Concrete fixtures used to instantiate the theorems below. -/

/-- Cookie names for the prefix `"aoh"`. -/
def exNames : CookieNames := getCookieNames "aoh"

/-- A cookie configuration that even sets `secure := false`. -/
def exCfg : CookieConfig :=
  { domain := Option.none, path := Option.none, secure := some false,
    httpOnly := Option.none, sameSite := Option.none, pfx := "aoh" }

/-- Cookie options for an https origin. -/
def exOpts : CookieSerializeOptions := buildCookieOptions exCfg "https://x"

/-- A tenant giving the tenant-admin role. -/
def exTenant1 : Tenant :=
  { tenant_name := Option.none, tenant_id := some "t1",
    roles := some ["tenant-admin"] }

/-- A tenant with no roles field. -/
def exTenant2 : Tenant :=
  { tenant_name := Option.none, tenant_id := some "t2", roles := Option.none }

/-- Decoded claims used by the concrete decode oracle. -/
def exClaims : AuthClaims :=
  { sub := some "alice"
    all_tenants := some [exTenant1, exTenant2]
    active_tenant := some exTenant1
    realm_access := some { roles := ["user"] } }

/-- Concrete decode oracle: `"tok"` and `"newtok"` decode to
`exClaims`, everything else is undecodable. -/
def exDecode : String → Option AuthClaims :=
  fun t => if t = "tok" || t = "newtok" then some exClaims else Option.none

/-- A request URL carrying both callback query parameters. -/
def exCallbackUrl : URLm :=
  { pathname := "/cb", search := "?code=c&session_state=s",
    paramNames := ["code", "session_state"] }

/-- A request URL with no query parameters. -/
def exPlainUrl : URLm := { pathname := "/", search := "", paramNames := [] }

/-- An empty cookie jar. -/
def jarEmpty : String → Option String := fun _ => Option.none

/-- A jar holding both token cookies. -/
def jarBoth : String → Option String := fun n =>
  if n = "aoh_access_token" then some "tok"
  else if n = "aoh_refresh_token" then some "rt" else Option.none

/-- A jar holding only the refresh-token cookie. -/
def jarRefreshOnly : String → Option String := fun n =>
  if n = "aoh_refresh_token" then some "rt" else Option.none

/-- A full token endpoint response. -/
def exTokenSet : TokenSet :=
  { access_token := "newtok", refresh_token := some "newrt",
    expires_in := some 300 }

/-- A token endpoint response without a refresh token. -/
def exTokenSetNoRefresh : TokenSet :=
  { access_token := "newtok", refresh_token := Option.none,
    expires_in := some 300 }

/-- A provider oracle on which every call succeeds. -/
def oracleBase : OidcOracle :=
  { decode := exDecode
    fetchUserInfoOk := fun _ _ => true
    refreshGrant := fun _ => some exTokenSet
    exchange := fun _ _ => Except.ok exTokenSet }

/-- A provider whose refresh response carries no refresh token. -/
def oracleRefreshNoRT : OidcOracle :=
  { oracleBase with refreshGrant := fun _ => some exTokenSetNoRefresh }

/-- An SDS store with a temp session holding a verifier and working
auth-session creation, but no live auth session. -/
def sdsTempOk : SdsOracle :=
  { authSessionGetAccessToken := fun _ => Except.error { error := Option.none }
    tempSessionGet := fun _ _ => Except.ok "ver"
    authSessionNew := fun _ _ => Except.ok "as1" }

/-! Helper lemmas shared by the claim theorems. -/

/-- A success handler never returns `Fail{}`: it either returns a
success result or throws on an undecodable token. -/
theorem handleAuthSuccess_snd_ne_ok_fail (d : String → Option AuthClaims)
    (names : CookieNames) (opts : CookieSerializeOptions) (a : String)
    (r : Option String) (e : Option Nat) :
    (handleAuthSuccess d names opts a r e).2 ≠ Except.ok AuthResult.fail := by
  unfold handleAuthSuccess
  cases h : decodeAccessToken d a <;> simp [h]

/-- The SDS success handler never returns `Fail{}`. -/
theorem handleSdsAuthSuccess_snd_ne_ok_fail (d : String → Option AuthClaims)
    (names : CookieNames) (opts : CookieSerializeOptions) (a sid : String) :
    (handleSdsAuthSuccess d names opts a sid).2 ≠ Except.ok AuthResult.fail := by
  unfold handleSdsAuthSuccess
  cases h : decodeAccessToken d a <;> simp [h]

/-- One refresh round trip performs exactly the one refresh call. -/
theorem doRefresh_calls (o : OidcOracle) (rt : String) (names : CookieNames)
    (opts : CookieSerializeOptions) :
    (doRefresh o rt names opts).calls = [ProviderCall.refreshCall rt] := by
  unfold doRefresh
  cases h : refreshTokens o rt <;> simp [h]

/-- Whenever the refresh round trip yields `Fail{}`, its cookie trace
ends with the five-slot clearing. -/
theorem doRefresh_fail_suffix (o : OidcOracle) (rt : String)
    (names : CookieNames) (opts : CookieSerializeOptions) :
    (doRefresh o rt names opts).result = Except.ok AuthResult.fail →
    failureClearOps names opts <:+ (doRefresh o rt names opts).ops := by
  unfold doRefresh
  cases h : refreshTokens o rt with
  | none => intro _; simp [handleAuthFailure]
  | some ts =>
    intro hres
    exact absurd hres (handleAuthSuccess_snd_ne_ok_fail o.decode names opts
      ts.access_token ts.refresh_token ts.expires_in)

/-- Whenever the cookie-backed callback handler yields `Fail{}`, its
cookie trace ends with the five-slot clearing. -/
theorem handleOidcCallback_fail_suffix (o : OidcOracle) (url : URLm)
    (origin : String) (cv : Option String) (names : CookieNames)
    (opts : CookieSerializeOptions) :
    (handleOidcCallback o url origin cv names opts).result = Except.ok AuthResult.fail →
    failureClearOps names opts <:+ (handleOidcCallback o url origin cv names opts).ops := by
  unfold handleOidcCallback
  cases hcv : truthyStr cv with
  | false => intro _; simp [handleAuthFailure]
  | true =>
    simp only [hcv, Bool.not_true]
    cases hex : o.exchange (origin ++ url.pathname ++ url.search) (cv.getD "") with
    | ok ts =>
      cases hsu : (handleAuthSuccess o.decode names opts ts.access_token
          ts.refresh_token ts.expires_in).2 with
      | ok r =>
        intro hres
        simp only [hsu] at hres
        simp at hres
        rcases hres with rfl
        exact absurd hsu (handleAuthSuccess_snd_ne_ok_fail o.decode names opts
          ts.access_token ts.refresh_token ts.expires_in)
      | error m =>
        intro _
        simp only [hsu, handleAuthFailure]
        exact List.suffix_append _ _
    | error e =>
      by_cases he : e.error = some "unauthorized_client" <;>
        simp [he, handleAuthFailure]

/-- Whenever the store-backed callback handler yields `Fail{}`, its
cookie trace ends with the two-slot clearing. -/
theorem handleSdsOidcCallback_fail_suffix (o : OidcOracle) (s : SdsOracle)
    (jar : String → Option String) (url : URLm) (origin : String)
    (names : CookieNames) (opts : CookieSerializeOptions) :
    (handleSdsOidcCallback o s jar url origin names opts).result = Except.ok AuthResult.fail →
    sdsFailureClearOps names opts <:+ (handleSdsOidcCallback o s jar url origin names opts).ops := by
  intro hres
  simp only [handleSdsOidcCallback] at hres ⊢
  repeat' split at hres
  all_goals try simp_all [handleSdsAuthFailure, List.suffix_append]
  all_goals rename_i heq
  all_goals exact absurd heq (handleSdsAuthSuccess_snd_ne_ok_fail _ _ _ _ _)

/-! Claim theorems. -/

/-- C1 (amended): every `Fail{}` result of the cookie-backed
`authenticate` is accompanied by the five-slot cookie clearing
(access token, refresh token, PKCE verifier, auth-session id,
temp-session id, each deleted with `maxAge = 0`), the clearing coming
last in the cookie trace; every `Fail{}` result of the store-backed
`authenticateWithSds` is accompanied by clearing of only the
two session-id slots (auth-session id and temp-session id) — not all
five. -/
theorem fail_result_clears_strategy_cookies (o : OidcOracle) (s : SdsOracle)
    (jar : String → Option String) (url : URLm) (origin : String)
    (names : CookieNames) (opts : CookieSerializeOptions) :
    ((authenticate o jar url origin names opts).result = Except.ok AuthResult.fail →
      failureClearOps names opts <:+ (authenticate o jar url origin names opts).ops)
    ∧ ((authenticateWithSds o s jar url origin names opts).result = Except.ok AuthResult.fail →
      sdsFailureClearOps names opts <:+ (authenticateWithSds o s jar url origin names opts).ops) := by
  constructor
  · intro hres
    by_cases h1 : (truthyStr (jar names.accessToken) && truthyStr (jar names.refreshToken)) = true
    · by_cases h2 : validateAccessToken o ((jar names.accessToken).getD "") = true
      · simp only [authenticate, h1, if_true, h2] at hres
        exact absurd hres (handleAuthSuccess_snd_ne_ok_fail _ _ _ _ _ _)
      · simp only [authenticate, h1, if_true] at hres ⊢
        rw [if_neg h2] at hres ⊢
        exact doRefresh_fail_suffix _ _ _ _ hres
    · by_cases h3 : truthyStr (jar names.refreshToken) = true
      · simp only [authenticate] at hres ⊢
        rw [if_neg h1, if_pos h3] at hres ⊢
        exact doRefresh_fail_suffix _ _ _ _ hres
      · by_cases h4 : isOidcCallback url = true
        · simp only [authenticate] at hres ⊢
          rw [if_neg h1, if_neg h3, if_pos h4] at hres ⊢
          exact handleOidcCallback_fail_suffix _ _ _ _ _ _ hres
        · simp only [authenticate] at hres ⊢
          rw [if_neg h1, if_neg h3, if_neg h4] at hres ⊢
          simp [handleAuthFailure]
  · intro hres
    by_cases h1 : truthyStr (jar names.authSessionId) = true
    · simp only [authenticateWithSds, h1, if_true] at hres ⊢
      cases hget : s.authSessionGetAccessToken ((jar names.authSessionId).getD "") with
      | ok accessToken =>
        simp only [hget] at hres ⊢
        cases hsu : (handleSdsAuthSuccess o.decode names opts accessToken
            ((jar names.authSessionId).getD "")).2 with
        | ok r =>
          simp only [hsu] at hres ⊢
          simp at hres
          rcases hres with rfl
          exact absurd hsu (handleSdsAuthSuccess_snd_ne_ok_fail _ _ _ _ _)
        | error m =>
          simp only [hsu]
          exact List.suffix_append _ _
      | error e =>
        simp only [hget]
        simp [handleSdsAuthFailure]
    · by_cases h2 : isOidcCallback url = true
      · simp only [authenticateWithSds] at hres ⊢
        rw [if_neg h1, if_pos h2] at hres ⊢
        exact handleSdsOidcCallback_fail_suffix _ _ _ _ _ _ _ hres
      · simp only [authenticateWithSds] at hres ⊢
        rw [if_neg h1, if_neg h2] at hres ⊢
        simp [handleSdsAuthFailure]

/-- C1 counterexample to the claim as stated: a store-backed call
that returns `Fail{}` yet never touches the access-token slot (nor,
a fortiori, clears all five slots) — `handleSdsAuthFailure` clears
only the two session-id cookies. -/
theorem fail_clears_all_five_counterexample :
    (authenticateWithSds oracleBase sdsTempOk jarEmpty exPlainUrl "https://x"
        exNames exOpts).result = Except.ok AuthResult.fail
    ∧ ((authenticateWithSds oracleBase sdsTempOk jarEmpty exPlainUrl "https://x"
        exNames exOpts).ops.all
          (fun op => op.slotName != exNames.accessToken)) = true
    ∧ ((authenticateWithSds oracleBase sdsTempOk jarEmpty exPlainUrl "https://x"
        exNames exOpts).ops.map CookieOp.slotName) =
        [exNames.authSessionId, exNames.tempSessionId] := by
  decide

/-- C1 witness: a cookie-backed failing call whose trace ends with
the five-slot clearing, and a store-backed failing call whose trace
ends with the two-slot clearing, obtained from the theorem. -/
theorem fail_result_clears_strategy_cookies_witness :
    failureClearOps exNames exOpts <:+
      (authenticate oracleBase jarEmpty exPlainUrl "https://x" exNames exOpts).ops
    ∧ sdsFailureClearOps exNames exOpts <:+
      (authenticateWithSds oracleBase sdsTempOk jarEmpty exPlainUrl "https://x"
        exNames exOpts).ops :=
  ⟨(fail_result_clears_strategy_cookies oracleBase sdsTempOk jarEmpty exPlainUrl
      "https://x" exNames exOpts).1 (by decide),
   (fail_result_clears_strategy_cookies oracleBase sdsTempOk jarEmpty exPlainUrl
      "https://x" exNames exOpts).2 (by decide)⟩

/-- C7: `buildCookieOptions` computes `secure` solely from the
origin's scheme — equal for any two configurations (in particular a
configured `secure` field has no effect), true exactly when the
lowercased origin starts with `"https://"`, and concretely `true` for
origin `"https://x"` and `false` for `"http://x"` whatever the
configuration says. -/
theorem secure_flag_follows_origin_scheme :
    (∀ (cfg cfg' : CookieConfig) (origin : String),
      (buildCookieOptions cfg origin).secure = (buildCookieOptions cfg' origin).secure)
    ∧ (∀ (cfg : CookieConfig) (origin : String),
      ((buildCookieOptions cfg origin).secure = some true ↔
        startsWithStr (lowercase origin) "https://" = true))
    ∧ (∀ cfg : CookieConfig, (buildCookieOptions cfg "https://x").secure = some true)
    ∧ (∀ cfg : CookieConfig, (buildCookieOptions cfg "http://x").secure = some false) := by
  refine ⟨fun _ _ _ => rfl, fun cfg origin => ?_, fun cfg => ?_, fun cfg => ?_⟩
  · simp [buildCookieOptions]
  · simp only [buildCookieOptions]
    decide
  · simp only [buildCookieOptions]
    decide

/-- C8: the tenant/role helpers are total and degrade to empty
values: `isTenantAdmin` is true exactly when the decoded claims carry
`"tenant-admin"` inside `active_tenant.roles`; on an undecodable
token every helper returns its empty value; `getTenantIds` lists the
`tenant_id`s of `all_tenants` in source order; a missing
`realm_access` or `active_tenant` field degrades the respective
helpers to empty values. -/
theorem tenant_role_helpers_degrade (d : String → Option AuthClaims)
    (t role : String) :
    (isTenantAdmin d t = true ↔
      ∃ c tenant roles, d t = some c ∧ c.active_tenant = some tenant ∧
        tenant.roles = some roles ∧ "tenant-admin" ∈ roles)
    ∧ (d t = Option.none →
        isTenantAdmin d t = false ∧ getTenantIds d t = [] ∧
        getActiveTenantId d t = Option.none ∧ getRealmRoles d t = [] ∧
        hasRealmRole d t role = false)
    ∧ (∀ c l, d t = some c → c.all_tenants = some l →
        getTenantIds d t = l.filterMap Tenant.tenant_id)
    ∧ (∀ c, d t = some c → c.realm_access = Option.none →
        getRealmRoles d t = [] ∧ hasRealmRole d t role = false)
    ∧ (∀ c, d t = some c → c.active_tenant = Option.none →
        getActiveTenantId d t = Option.none ∧ isTenantAdmin d t = false) := by
  refine ⟨?_, ?_, ?_, ?_, ?_⟩
  · cases hd : d t with
    | none =>
      simp [isTenantAdmin, decodeAccessToken, hd]
    | some c =>
      cases hat : c.active_tenant with
      | none => simp [isTenantAdmin, decodeAccessToken, hd, hat]
      | some tenant =>
        cases hroles : tenant.roles with
        | none => simp [isTenantAdmin, decodeAccessToken, hd, hat, hroles]
        | some roles =>
          simp [isTenantAdmin, decodeAccessToken, hd, hat, hroles,
            List.contains_iff_exists_mem_beq, beq_iff_eq]
  · intro hd
    simp [isTenantAdmin, getTenantIds, getActiveTenantId, getRealmRoles,
      hasRealmRole, decodeAccessToken, hd]
  · intro c l hd hall
    simp [getTenantIds, decodeAccessToken, hd, hall]
  · intro c hd hra
    simp [getRealmRoles, hasRealmRole, decodeAccessToken, hd, hra]
  · intro c hd hat
    simp [getActiveTenantId, isTenantAdmin, decodeAccessToken, hd, hat]

/-- C8 witness: the helpers applied to a decodable admin token and to
an undecodable token, through the theorem. -/
theorem tenant_role_helpers_degrade_witness :
    isTenantAdmin exDecode "tok" = true
    ∧ getTenantIds exDecode "tok" = ["t1", "t2"]
    ∧ getTenantIds exDecode "invalid" = []
    ∧ isTenantAdmin exDecode "invalid" = false := by
  refine ⟨?_, ?_, ?_, ?_⟩
  · exact (tenant_role_helpers_degrade exDecode "tok" "r").1.mpr
      ⟨exClaims, exTenant1, ["tenant-admin"], by decide, by decide, by decide,
        by decide⟩
  · have h := (tenant_role_helpers_degrade exDecode "tok" "r").2.2.1
      exClaims [exTenant1, exTenant2] (by decide) (by decide)
    rw [h]
    decide
  · exact ((tenant_role_helpers_degrade exDecode "invalid" "r").2.1 (by decide)).2.1
  · exact ((tenant_role_helpers_degrade exDecode "invalid" "r").2.1 (by decide)).1

/-- C6: with no token cookies, a callback URL, and no PKCE verifier
cookie, `authenticate` fails closed: `Fail{}` is returned and no
provider capability — in particular not the code exchange — is ever
invoked. -/
theorem callback_without_verifier_fails_closed (o : OidcOracle)
    (jar : String → Option String) (url : URLm) (origin : String)
    (names : CookieNames) (opts : CookieSerializeOptions)
    (ha : jar names.accessToken = Option.none)
    (hr : jar names.refreshToken = Option.none)
    (hcb : isOidcCallback url = true)
    (hcv : jar names.codeVerifier = Option.none) :
    (authenticate o jar url origin names opts).result = Except.ok AuthResult.fail
    ∧ (authenticate o jar url origin names opts).calls = [] := by
  constructor <;>
    simp [authenticate, handleOidcCallback, handleAuthFailure, ha, hr, hcv, hcb]

/-- C6 witness: the empty jar against a callback URL and a provider
whose exchange would succeed. -/
theorem callback_without_verifier_fails_closed_witness :
    (authenticate oracleBase jarEmpty exCallbackUrl "https://x" exNames
        exOpts).result = Except.ok AuthResult.fail
    ∧ (authenticate oracleBase jarEmpty exCallbackUrl "https://x" exNames
        exOpts).calls = [] :=
  callback_without_verifier_fails_closed oracleBase jarEmpty exCallbackUrl
    "https://x" exNames exOpts rfl rfl (by decide) rfl

/-- C5: with both token cookies present and a successful validation,
`authenticate` returns `Success` carrying the decoded claims of the
access-token cookie (so `claims.sub` is the token's encoded subject),
and its only cookie mutation is clearing the PKCE verifier — in
particular there is no `set` on any slot, so neither token cookie is
rewritten. -/
theorem valid_pair_success_no_rewrite (o : OidcOracle)
    (jar : String → Option String) (url : URLm) (origin : String)
    (names : CookieNames) (opts : CookieSerializeOptions)
    (ha : truthyStr (jar names.accessToken) = true)
    (hr : truthyStr (jar names.refreshToken) = true)
    (hv : validateAccessToken o ((jar names.accessToken).getD "") = true) :
    ∃ claims, o.decode ((jar names.accessToken).getD "") = some claims
      ∧ (authenticate o jar url origin names opts).result =
          Except.ok (AuthResult.success claims ((jar names.accessToken).getD ""))
      ∧ (authenticate o jar url origin names opts).ops =
          [CookieOp.delete names.codeVerifier (withExpiry opts 0)]
      ∧ ((authenticate o jar url origin names opts).ops.all
          (fun op => !op.isSetOp)) = true := by
  obtain ⟨claims, hdec⟩ :
      ∃ c, o.decode ((jar names.accessToken).getD "") = some c := by
    unfold validateAccessToken at hv
    cases hd : o.decode ((jar names.accessToken).getD "") with
    | none => rw [hd] at hv; simp at hv
    | some c => exact ⟨c, rfl⟩
  refine ⟨claims, hdec, ?_, ?_, ?_⟩ <;>
    simp [authenticate, ha, hr, hv, handleAuthSuccess, decodeAccessToken, hdec,
      CookieOp.isSetOp]

/-- C5 witness: a validating token pair through the theorem. -/
theorem valid_pair_success_no_rewrite_witness :
    ∃ claims, oracleBase.decode "tok" = some claims
      ∧ (authenticate oracleBase jarBoth exPlainUrl "https://x" exNames
          exOpts).result = Except.ok (AuthResult.success claims "tok")
      ∧ (authenticate oracleBase jarBoth exPlainUrl "https://x" exNames
          exOpts).ops = [CookieOp.delete exNames.codeVerifier (withExpiry exOpts 0)]
      ∧ ((authenticate oracleBase jarBoth exPlainUrl "https://x" exNames
          exOpts).ops.all (fun op => !op.isSetOp)) = true :=
  valid_pair_success_no_rewrite oracleBase jarBoth exPlainUrl "https://x"
    exNames exOpts (by decide) (by decide) (by decide)

/-- C3: whenever the refresh-token cookie is present, the
validate/refresh branches take precedence over callback handling for
any URL: the code exchange is never invoked, the first provider call
is the validation when the access token is also present, and with no
access token the whole call trace is the single refresh call. -/
theorem refresh_precedence_over_callback (o : OidcOracle)
    (jar : String → Option String) (url : URLm) (origin : String)
    (names : CookieNames) (opts : CookieSerializeOptions)
    (hrt : truthyStr (jar names.refreshToken) = true) :
    (∀ cu cv, ProviderCall.exchange cu cv ∉
        (authenticate o jar url origin names opts).calls)
    ∧ (truthyStr (jar names.accessToken) = true →
        (authenticate o jar url origin names opts).calls.head? =
          some (ProviderCall.validate ((jar names.accessToken).getD "")))
    ∧ (truthyStr (jar names.accessToken) = false →
        (authenticate o jar url origin names opts).calls =
          [ProviderCall.refreshCall ((jar names.refreshToken).getD "")]) := by
  by_cases ha : truthyStr (jar names.accessToken) = true
  · by_cases hv : validateAccessToken o ((jar names.accessToken).getD "") = true
    · refine ⟨?_, ?_, ?_⟩ <;> simp [authenticate, ha, hrt, hv]
    · refine ⟨?_, ?_, ?_⟩ <;> simp [authenticate, ha, hrt, hv, doRefresh_calls]
  · have ha' : truthyStr (jar names.accessToken) = false := by
      cases h : truthyStr (jar names.accessToken)
      · rfl
      · exact absurd h ha
    refine ⟨?_, ?_, ?_⟩ <;> simp [authenticate, ha', hrt, doRefresh_calls]

/-- C3 witness: a refresh-token-only jar against a URL that carries
callback parameters and a provider whose exchange would succeed. -/
theorem refresh_precedence_over_callback_witness :
    (∀ cu cv, ProviderCall.exchange cu cv ∉
        (authenticate oracleBase jarRefreshOnly exCallbackUrl "https://x"
          exNames exOpts).calls)
    ∧ (truthyStr (jarRefreshOnly exNames.accessToken) = true →
        (authenticate oracleBase jarRefreshOnly exCallbackUrl "https://x"
          exNames exOpts).calls.head? = some (ProviderCall.validate ""))
    ∧ (truthyStr (jarRefreshOnly exNames.accessToken) = false →
        (authenticate oracleBase jarRefreshOnly exCallbackUrl "https://x"
          exNames exOpts).calls = [ProviderCall.refreshCall "rt"]) :=
  refresh_precedence_over_callback oracleBase jarRefreshOnly exCallbackUrl
    "https://x" exNames exOpts (by decide)

/-- C4 (amended): with only a refresh token cookie (or an invalid
access token alongside it) and a successful provider refresh whose
response carries a refresh token and a decodable access token,
`authenticate` performs exactly one refresh call, returns `Success`
with the new access token's decoded claims, and writes the
refresh-token cookie with `maxAge` equal to `REFRESH_TOKEN_EXPIRY`,
which is the constant 31536000 (one year in seconds).  When the
response omits the refresh token, the cookie is not written (see the
counterexample). -/
theorem refresh_success_one_call_one_year_cookie (o : OidcOracle)
    (jar : String → Option String) (url : URLm) (origin : String)
    (names : CookieNames) (opts : CookieSerializeOptions) (ts : TokenSet)
    (claims : AuthClaims)
    (hts : refreshTokens o ((jar names.refreshToken).getD "") = some ts)
    (hrt : truthyStr ts.refresh_token = true)
    (hdec : o.decode ts.access_token = some claims) :
    (truthyStr (jar names.accessToken) = false →
      truthyStr (jar names.refreshToken) = true →
      (authenticate o jar url origin names opts).calls =
        [ProviderCall.refreshCall ((jar names.refreshToken).getD "")]
      ∧ (authenticate o jar url origin names opts).result =
          Except.ok (AuthResult.success claims ts.access_token)
      ∧ CookieOp.set names.refreshToken (ts.refresh_token.getD "")
          (withExpiry opts REFRESH_TOKEN_EXPIRY) ∈
          (authenticate o jar url origin names opts).ops)
    ∧ (truthyStr (jar names.accessToken) = true →
      truthyStr (jar names.refreshToken) = true →
      validateAccessToken o ((jar names.accessToken).getD "") = false →
      (authenticate o jar url origin names opts).calls =
        [ProviderCall.validate ((jar names.accessToken).getD ""),
         ProviderCall.refreshCall ((jar names.refreshToken).getD "")]
      ∧ (authenticate o jar url origin names opts).result =
          Except.ok (AuthResult.success claims ts.access_token)
      ∧ CookieOp.set names.refreshToken (ts.refresh_token.getD "")
          (withExpiry opts REFRESH_TOKEN_EXPIRY) ∈
          (authenticate o jar url origin names opts).ops)
    ∧ (withExpiry opts REFRESH_TOKEN_EXPIRY).maxAge = some 31536000 := by
  refine ⟨?_, ?_, ?_⟩
  · intro ha hr
    refine ⟨?_, ?_, ?_⟩ <;>
      simp [authenticate, doRefresh, handleAuthSuccess, decodeAccessToken,
        ha, hr, hts, hrt, hdec]
  · intro ha hr hv
    refine ⟨?_, ?_, ?_⟩ <;>
      simp [authenticate, doRefresh, handleAuthSuccess, decodeAccessToken,
        ha, hr, hv, hts, hrt, hdec]
  · simp only [withExpiry]
    decide

/-- C4 witness: a refresh-only jar with a full provider response,
through the theorem. -/
theorem refresh_success_one_call_one_year_cookie_witness :
    (authenticate oracleBase jarRefreshOnly exPlainUrl "https://x" exNames
        exOpts).calls = [ProviderCall.refreshCall "rt"]
    ∧ (authenticate oracleBase jarRefreshOnly exPlainUrl "https://x" exNames
        exOpts).result = Except.ok (AuthResult.success exClaims "newtok")
    ∧ CookieOp.set exNames.refreshToken "newrt"
        (withExpiry exOpts REFRESH_TOKEN_EXPIRY) ∈
        (authenticate oracleBase jarRefreshOnly exPlainUrl "https://x" exNames
          exOpts).ops :=
  (refresh_success_one_call_one_year_cookie oracleBase jarRefreshOnly
    exPlainUrl "https://x" exNames exOpts exTokenSet exClaims (by decide)
    (by decide) (by decide)).1 (by decide) (by decide)

/-- C4 counterexample to the claim as stated: the provider's refresh
succeeds (one refresh call, `Success` with the decoded claims) but
its response carries no refresh token, and then no cookie operation
touches the refresh-token slot at all — the refresh-token cookie is
not written with the one-year `maxAge`. -/
theorem refresh_cookie_written_counterexample :
    (authenticate oracleRefreshNoRT jarRefreshOnly exPlainUrl "https://x"
        exNames exOpts).calls = [ProviderCall.refreshCall "rt"]
    ∧ (authenticate oracleRefreshNoRT jarRefreshOnly exPlainUrl "https://x"
        exNames exOpts).result = Except.ok (AuthResult.success exClaims "newtok")
    ∧ ((authenticate oracleRefreshNoRT jarRefreshOnly exPlainUrl "https://x"
        exNames exOpts).ops.all
          (fun op => op.slotName != exNames.refreshToken)) = true := by
  decide

end AuthSdk
